import Mathlib

/-!
Verification of the heap-policy layer of the immer memory-allocation
subsystem (`immer/heap/heap_policy.hpp`).

The policy layer is a compile-time computation from a node byte size to a
concrete heap type, built from the heap combinators of the library.  We
embed that type-level computation shallowly: `HeapType` is the syntax of
heap type expressions, and each policy of `heap_policy.hpp` becomes a
function producing such expressions.  The runtime behaviour of the heap
combinators themselves (`split_heap`, `debug_size_heap`, the free-list
heaps) lives in other headers; where a claim needs it, it is modelled from
the specification's description of those components.
-/

namespace Immer

/-- Heap type expressions: the concrete heap types that the policies of
`heap_policy.hpp` compose.  `base` stands for the user-supplied `Heap`
template argument; the remaining constructors mirror the heap templates
used by the policies, with their `std::size_t` parameters as `Nat`s. -/
inductive HeapType : Type where
  | base : HeapType
  | debug_size_heap : HeapType → HeapType
  | free_list_heap : Nat → Nat → HeapType → HeapType
  | unsafe_free_list_heap : Nat → Nat → HeapType → HeapType
  | thread_local_free_list_heap : Nat → Nat → HeapType → HeapType
  | with_free_list_node : HeapType → HeapType
  | split_heap : Nat → HeapType → HeapType → HeapType

/-- A heap policy as `heap_policy.hpp` exposes one: a default heap type
(the member `type`) and, for every compile-time size, an optimized heap
type (the member template `optimized<Size>::type`). -/
structure HeapPolicy : Type where
  type : HeapType
  optimized : Nat → HeapType

/-- `immer::heap_policy<Heap>` (heap_policy.hpp lines 37-47): uses its
`Heap` argument unconditionally. -/
def heap_policy (Heap : HeapType) : HeapPolicy where
  type := Heap
  optimized := fun _ => Heap

/-- `immer::free_list_heap_policy<Heap, Limit>` (heap_policy.hpp lines
114-134): `type` is `debug_size_heap<Heap>`; `optimized<Size>::type` is
`split_heap<Size, with_free_list_node<thread_local_free_list_heap<Size,
Limit, free_list_heap<Size, Limit, debug_size_heap<Heap>>>>,
debug_size_heap<Heap>>`. -/
def free_list_heap_policy (Heap : HeapType) (Limit : Nat) : HeapPolicy where
  type := .debug_size_heap Heap
  optimized := fun Size =>
    .split_heap Size
      (.with_free_list_node
        (.thread_local_free_list_heap Size Limit
          (.free_list_heap Size Limit (.debug_size_heap Heap))))
      (.debug_size_heap Heap)

/-- `immer::unsafe_free_list_heap_policy<Heap, Limit>` (heap_policy.hpp
lines 141-158): `type` is `Heap`; `optimized<Size>::type` is
`split_heap<Size, with_free_list_node<unsafe_free_list_heap<Size, Limit,
debug_size_heap<Heap>>>, debug_size_heap<Heap>>`. -/
def unsafe_free_list_heap_policy (Heap : HeapType) (Limit : Nat) : HeapPolicy where
  type := Heap
  optimized := fun Size =>
    .split_heap Size
      (.with_free_list_node
        (.unsafe_free_list_heap Size Limit (.debug_size_heap Heap)))
      (.debug_size_heap Heap)

/-- The chain the spec's words give for the thread-safe free-list policy:
`SplitHeap<size, ThreadLocalFreeListHeap<size, Limit, FreeListHeap<size,
Limit, DebugSizeHeap<BaseHeap>>>, DebugSizeHeap<BaseHeap>>` — note it has
no `with_free_list_node` wrapper around the optimized branch. -/
def spec_free_list_optimized (Heap : HeapType) (Limit Size : Nat) : HeapType :=
  .split_heap Size
    (.thread_local_free_list_heap Size Limit
      (.free_list_heap Size Limit (.debug_size_heap Heap)))
    (.debug_size_heap Heap)

/-- The spec's chain amended as the code forces: the optimized branch —
the thread-local free-list heap of block size `Size` and capacity `Limit`,
backed by the global free-list heap of the same `Size` and `Limit`, backed
by the debug-size-wrapped base heap — is additionally wrapped in
`with_free_list_node`; the fallback branch is the debug-size-wrapped base
heap. -/
def spec_free_list_optimized_amended (Heap : HeapType) (Limit Size : Nat) : HeapType :=
  .split_heap Size
    (.with_free_list_node
      (.thread_local_free_list_heap Size Limit
        (.free_list_heap Size Limit (.debug_size_heap Heap))))
    (.debug_size_heap Heap)

/-- The substitution the spec describes for the unsafe variant: drop every
thread-local tier and replace each atomic global free list by the
non-atomic (unsafe) one, leaving everything else in place. -/
def substUnsafe : HeapType → HeapType
  | .base => .base
  | .debug_size_heap h => .debug_size_heap (substUnsafe h)
  | .free_list_heap s l h => .unsafe_free_list_heap s l (substUnsafe h)
  | .unsafe_free_list_heap s l h => .unsafe_free_list_heap s l (substUnsafe h)
  | .thread_local_free_list_heap _ _ h => substUnsafe h
  | .with_free_list_node h => .with_free_list_node (substUnsafe h)
  | .split_heap s a b => .split_heap s (substUnsafe a) (substUnsafe b)

/-- Whether a heap type expression contains a thread-local free-list tier
anywhere. -/
def hasThreadLocal : HeapType → Bool
  | .base => false
  | .debug_size_heap h => hasThreadLocal h
  | .free_list_heap _ _ h => hasThreadLocal h
  | .unsafe_free_list_heap _ _ h => hasThreadLocal h
  | .thread_local_free_list_heap _ _ _ => true
  | .with_free_list_node h => hasThreadLocal h
  | .split_heap _ a b => hasThreadLocal a || hasThreadLocal b

/-- Whether the outermost layer of a heap type is the debug size wrapper. -/
def isDebugWrapped : HeapType → Bool
  | .debug_size_heap _ => true
  | _ => false

/-- C1 (amended): for every base heap, capacity limit and node size, the
thread-safe free-list policy's optimized heap resolves to the split heap
with threshold `Size` whose optimized branch is the three-tier chain of
the spec wrapped in `with_free_list_node`, and whose fallback branch is
the debug-size-wrapped base heap. -/
theorem free_list_policy_optimized_shape (Heap : HeapType) (Limit Size : Nat) :
    (free_list_heap_policy Heap Limit).optimized Size
      = spec_free_list_optimized_amended Heap Limit Size := rfl

/-- C1, counterexample: at base heap `base`, limit 1024 and node size 48
the code's resolution is not the bare chain the spec's words give, because
the code wraps the optimized branch in `with_free_list_node`. -/
theorem free_list_policy_optimized_shape_cex :
    (free_list_heap_policy .base 1024).optimized 48
      ≠ spec_free_list_optimized .base 1024 48 := by
  intro h
  injection h with h1 h2 h3
  injection h2

/-- C5: the plain heap policy ignores the node size — for every size its
optimized resolution and its default resolution both yield exactly the
user-supplied heap type, unchanged. -/
theorem heap_policy_ignores_size (Heap : HeapType) (S S' : Nat) :
    (heap_policy Heap).optimized S = Heap
    ∧ (heap_policy Heap).type = Heap
    ∧ (heap_policy Heap).optimized S = (heap_policy Heap).optimized S' :=
  ⟨rfl, rfl, rfl⟩

/-- C10: the thread-safe free-list policy's default (non-optimized) heap
type is the base heap wrapped in the debug size heap, while the unsafe
free-list policy's default heap type is the bare base heap with no debug
wrapping added. -/
theorem policy_default_heap_wrapping (Heap : HeapType) (Limit : Nat) :
    (free_list_heap_policy Heap Limit).type = .debug_size_heap Heap
    ∧ isDebugWrapped (free_list_heap_policy Heap Limit).type = true
    ∧ (unsafe_free_list_heap_policy Heap Limit).type = Heap :=
  ⟨rfl, rfl, rfl⟩

/-- C4: the unsafe free-list policy's optimized heap is exactly the
thread-safe policy's optimized heap with the thread-local tier dropped and
the atomic global free list replaced by the unsafe one; and it contains no
thread-local tier beyond whatever the base heap itself contains. -/
theorem unsafe_policy_optimized_shape (Heap : HeapType) (Limit Size : Nat)
    (hH : substUnsafe Heap = Heap) :
    (unsafe_free_list_heap_policy Heap Limit).optimized Size
      = substUnsafe ((free_list_heap_policy Heap Limit).optimized Size)
    ∧ hasThreadLocal ((unsafe_free_list_heap_policy Heap Limit).optimized Size)
      = hasThreadLocal Heap := by
  constructor
  · simp [unsafe_free_list_heap_policy, free_list_heap_policy, substUnsafe, hH]
  · simp [unsafe_free_list_heap_policy, hasThreadLocal]

/-- C4, witness: the shape relation at base heap `base`, limit 1024, node
size 48. -/
theorem unsafe_policy_optimized_shape_witness :
    substUnsafe .base = .base
    ∧ ((unsafe_free_list_heap_policy .base 1024).optimized 48
        = substUnsafe ((free_list_heap_policy .base 1024).optimized 48)
      ∧ hasThreadLocal ((unsafe_free_list_heap_policy .base 1024).optimized 48)
        = hasThreadLocal .base) :=
  ⟨rfl, unsafe_policy_optimized_shape .base 1024 48 rfl⟩

/-- One call into the heap API as the allocator mixin issues it: which
resolved heap type receives the call, and the runtime size argument passed
to it. -/
structure AllocCall : Type where
  heap : HeapType
  size : Nat

/-- `enable_optimized_heap_policy::operator new` (heap_policy.hpp lines
52-58): resolves `HeapPolicy::optimized<sizeof(Deriv)>::type` and calls
its `allocate` with the runtime `size`.  `sizeofDeriv` stands for the
compile-time `sizeof(Deriv)`, `size` for the runtime argument. -/
def enable_optimized_heap_policy.opNew
    (P : HeapPolicy) (sizeofDeriv size : Nat) : AllocCall where
  heap := P.optimized sizeofDeriv
  size := size

/-- `enable_optimized_heap_policy::operator delete` (heap_policy.hpp lines
60-66): resolves the same `HeapPolicy::optimized<sizeof(Deriv)>::type` and
calls its `deallocate` with the runtime `size`. -/
def enable_optimized_heap_policy.opDelete
    (P : HeapPolicy) (sizeofDeriv size : Nat) : AllocCall where
  heap := P.optimized sizeofDeriv
  size := size

/-- C2: construction requests the runtime `size` bytes from the heap the
policy resolves for the compile-time `sizeof(Deriv)`, and destruction
issues the very same call (same resolved heap, same size argument) as
deallocation. -/
theorem mixin_routes_through_resolved_heap (P : HeapPolicy) (sizeofDeriv size : Nat) :
    (enable_optimized_heap_policy.opNew P sizeofDeriv size).heap
      = P.optimized sizeofDeriv
    ∧ (enable_optimized_heap_policy.opNew P sizeofDeriv size).size = size
    ∧ enable_optimized_heap_policy.opDelete P sizeofDeriv size
      = enable_optimized_heap_policy.opNew P sizeofDeriv size :=
  ⟨rfl, rfl, rfl⟩

/-- C9: the mixin's operator new and operator delete resolve the identical
heap type, computed from the compile-time `sizeofDeriv` alone and never
from the runtime size — two calls with arbitrary, different runtime sizes
still hit the heap resolved for `sizeofDeriv`. -/
theorem mixin_heap_independent_of_runtime_size
    (P : HeapPolicy) (sizeofDeriv s1 s2 : Nat) :
    (enable_optimized_heap_policy.opNew P sizeofDeriv s1).heap
      = (enable_optimized_heap_policy.opDelete P sizeofDeriv s2).heap
    ∧ (enable_optimized_heap_policy.opNew P sizeofDeriv s1).heap
      = P.optimized sizeofDeriv :=
  ⟨rfl, rfl⟩

/-- Which of the split heap's two underlying heaps serves a request. -/
inductive Branch : Type where
  | optimized : Branch
  | fallback : Branch

/-- Modelled from the spec: `split_heap` (spec 4.5; `split_heap.hpp` is
not under src/).  `allocate(requested)`: if `requested <= Size` delegate
to the optimized heap, always requesting the fixed `Size`; otherwise
delegate to the fallback heap with the exact `requested`.  The result is
the branch taken and the size passed to the chosen underlying heap. -/
def split_heap.allocate (Size requested : Nat) : Branch × Nat :=
  if requested ≤ Size then (.optimized, Size) else (.fallback, requested)

/-- Modelled from the spec: `split_heap` deallocation (spec 4.5) routes
back through the same branch using the original requested size. -/
def split_heap.deallocate (Size requested : Nat) : Branch :=
  if requested ≤ Size then .optimized else .fallback

/-- C6: with threshold 64, `allocate(32)` routes to the optimized heap and
`allocate(128)` routes to the fallback heap, and for every requested size
deallocation takes the same branch allocation took. -/
theorem split_heap_routing :
    (split_heap.allocate 64 32).1 = .optimized
    ∧ (split_heap.allocate 64 128).1 = .fallback
    ∧ ∀ requested : Nat,
        split_heap.deallocate 64 requested = (split_heap.allocate 64 requested).1 := by
  refine ⟨rfl, rfl, fun requested => ?_⟩
  by_cases h : requested ≤ 64 <;>
    simp [split_heap.allocate, split_heap.deallocate, h]

/-- C7: a request at or below the threshold is served by the optimized
heap with the fixed `Size` (so the block's capacity is `Size` even when
less was asked for), and a request strictly above the threshold is
delegated to the fallback with the exact requested size. -/
theorem split_heap_fixed_size (Size requested : Nat) :
    (requested ≤ Size → split_heap.allocate Size requested = (.optimized, Size))
    ∧ (Size < requested → split_heap.allocate Size requested = (.fallback, requested)) := by
  constructor
  · intro h
    simp [split_heap.allocate, h]
  · intro h
    simp [split_heap.allocate, Nat.not_le.mpr h]

/-- C7, witness: both branches at threshold 64, with requests 32 and 128. -/
theorem split_heap_fixed_size_witness :
    ((32 : Nat) ≤ 64 ∧ split_heap.allocate 64 32 = (.optimized, 64))
    ∧ ((64 : Nat) < 128 ∧ split_heap.allocate 64 128 = (.fallback, 128)) :=
  ⟨⟨by decide, (split_heap_fixed_size 64 32).1 (by decide)⟩,
   ⟨by decide, (split_heap_fixed_size 64 128).2 (by decide)⟩⟩

/-- A block as the debug size heap hands it out: in a debug build it
carries the size stored in the metadata region at allocation; in a release
build the wrapper is elided and no size is stored. -/
structure DebugBlock : Type where
  tag : Option Nat

/-- What a deallocation through the debug size heap does: succeed, or stop
the program with a fatal assertion failure. -/
inductive DeallocOutcome : Type where
  | ok : DeallocOutcome
  | assertion_failed : DeallocOutcome

/-- Modelled from the spec: `debug_size_heap` allocation (spec 4.2;
`debug_size_heap.hpp` is not under src/).  `debug` is the build mode.  In
a debug build the wrapper writes the requested size into the metadata of
the block; in a release build it is elided entirely and nothing is
stored. -/
def debug_size_heap.allocate (debug : Bool) (size : Nat) : DebugBlock :=
  if debug then ⟨some size⟩ else ⟨none⟩

/-- Modelled from the spec: `debug_size_heap` deallocation (spec 4.2).  In
a debug build it reads the stored size and asserts equality with the size
now passed, a fatal assertion failure on mismatch; in a release build the
wrapper is elided and no check of any kind happens. -/
def debug_size_heap.deallocate (debug : Bool) (size : Nat) (b : DebugBlock) :
    DeallocOutcome :=
  if debug then
    match b.tag with
    | some stored => if stored = size then .ok else .assertion_failed
    | none => .assertion_failed
  else .ok

/-- C8: deallocating with a size different from the paired allocation is a
fatal assertion failure in a debug build, and passes silently unchecked in
a release build. -/
theorem debug_size_heap_mismatch (sAlloc sDealloc : Nat) (h : sAlloc ≠ sDealloc) :
    debug_size_heap.deallocate true sDealloc (debug_size_heap.allocate true sAlloc)
      = .assertion_failed
    ∧ debug_size_heap.deallocate false sDealloc (debug_size_heap.allocate false sAlloc)
      = .ok := by
  constructor
  · simp [debug_size_heap.allocate, debug_size_heap.deallocate, h]
  · simp [debug_size_heap.deallocate]

/-- C8, witness: allocate 8 bytes, deallocate claiming 16. -/
theorem debug_size_heap_mismatch_witness :
    (8 : Nat) ≠ 16
    ∧ (debug_size_heap.deallocate true 16 (debug_size_heap.allocate true 8)
        = .assertion_failed
      ∧ debug_size_heap.deallocate false 16 (debug_size_heap.allocate false 8)
        = .ok) :=
  ⟨by decide, debug_size_heap_mismatch 8 16 (by decide)⟩

/-- The global free-list state of the program, keyed by heap type: in the
code every heap is a class of static members, so two occurrences of the
same heap type name one and the same state cell.  For each heap type the
state is the stack of cached block identifiers (head = most recently
freed). -/
def Store : Type := HeapType → List Nat

/-- Modelled from the spec: `free_list_heap` deallocation (spec 4.3;
`free_list_heap.hpp` is not under src/) acting on the free list of one
heap type: if the cached count is at or above `Limit` the block goes to
the underlying heap and the list is unchanged, otherwise the block is
pushed onto the list. -/
def flDeallocate (Limit b : Nat) (l : List Nat) : List Nat :=
  if Limit ≤ l.length then l else b :: l

/-- Modelled from the spec: `free_list_heap` allocation (spec 4.3) acting
on the free list of one heap type: pop the head if the list is non-empty
(the underlying heap is not called), else fall through (`none`). -/
def flAllocate (l : List Nat) : Option Nat × List Nat :=
  match l with
  | [] => (none, [])
  | b :: rest => (some b, rest)

/-- C3: resolving the free-list policy's optimized heap for node size 48
twice yields the same heap type, hence the two resolutions denote the
same free-list state cell of the store, and a block freed through that
shared state is the block the next allocation through it returns. -/
theorem free_list_policy_deterministic (Heap : HeapType) (Limit b : Nat) (σ : Store)
    (hroom : (σ ((free_list_heap_policy Heap Limit).optimized 48)).length < Limit) :
    (free_list_heap_policy Heap Limit).optimized 48
      = (free_list_heap_policy Heap Limit).optimized 48
    ∧ (flAllocate (flDeallocate Limit b
        (σ ((free_list_heap_policy Heap Limit).optimized 48)))).1
      = some b := by
  refine ⟨rfl, ?_⟩
  simp [flAllocate, flDeallocate, Nat.not_le.mpr hroom]

/-- C3, witness: base heap `base`, limit 1, block 7, starting from the
empty store. -/
theorem free_list_policy_deterministic_witness :
    ((fun _ : HeapType => ([] : List Nat))
        ((free_list_heap_policy .base 1).optimized 48)).length < 1
    ∧ ((free_list_heap_policy .base 1).optimized 48
        = (free_list_heap_policy .base 1).optimized 48
      ∧ (flAllocate (flDeallocate 1 7
          ((fun _ : HeapType => ([] : List Nat))
            ((free_list_heap_policy .base 1).optimized 48)))).1
        = some 7) :=
  ⟨Nat.one_pos,
   free_list_policy_deterministic .base 1 7 (fun _ => []) Nat.one_pos⟩

end Immer
